import Mathlib

/-!
Verification of the prompt resolution and caching engine of the
`optible/langfuse-go` client library.

The development shallowly embeds the Go sources:
* `internal/pkg/cache/cache.go` — the generic TTL cache (`Entry`, `Cache`,
  `Get`, `Set`, `SetWithTTL`, `Delete`, `Clear`, `Cleanup`, `Size`);
* `langfuse.go` — the prompt resolver (`GetPrompt`, `buildPromptCacheKey`,
  `fetchPrompt`, `parsePromptResponse`) and its options bundle;
* `model` — the `Prompt` tagged union (`TextPrompt` / `ChatPrompt`).

Modelling conventions:
* Go `time.Time` instants and `time.Duration` values are both embedded as
  `Int` (Go durations are signed 64-bit nanosecond counts; no arithmetic here
  overflows the claims' scope).  Each operation that reads the wall clock in
  Go takes the current instant `now : Int` explicitly.
* The Go `map[string]*Entry[T]` is embedded as an association list in which
  insertion replaces an existing binding in place, so each key is bound at
  most once exactly as in a Go map.
* The HTTP transport (`client.DoGetRequest`) is an external collaborator; it
  is embedded as a function argument `doGet` from the prompt name and the
  effective query (version / label / none, version taking precedence) to a
  transport outcome, mirroring the spec's
  `fetch(name, version?, label?) -> (body, status) | error` capability.
* A response body is embedded as the abstract outcome of the stdlib JSON
  decoder: the raw text plus what each `json.Unmarshal` step of
  `parsePromptResponse` would yield on it.  Go struct fields of dynamic type
  `any` (`Config`, `ResolutionGraph`) are outside the embedding.
* `FetchTimeout` and context cancellation act only by making the transport
  fail, so they are subsumed by the transport returning an error.
-/

/-! ## TTL cache (`internal/pkg/cache/cache.go`) -/

/-- Go struct Entry from cache.go: a cached item with expiration. -/
structure Entry (T : Type) where
  value : T
  expiresAt : Int
  isFallback : Bool
deriving Repr, DecidableEq

/-- Method IsExpired: `time.Now().After(e.ExpiresAt)`, i.e. the current
instant is strictly after the expiry instant. -/
def Entry.IsExpired (e : Entry T) (now : Int) : Bool :=
  decide (e.expiresAt < now)

/-- Go struct Cache from cache.go: entries plus the default TTL.  The mutex
only serialises access in Go and has no sequential counterpart. -/
structure Cache (T : Type) where
  entries : List (String × Entry T)
  ttl : Int
deriving Repr, DecidableEq

/-- Constructor cache.New: empty entry map, given default TTL. -/
def Cache.new (T : Type) (ttl : Int) : Cache T :=
  ⟨[], ttl⟩

/-- Go map read `c.entries[key]`. -/
def lookupEntry (entries : List (String × Entry T)) (key : String) :
    Option (Entry T) :=
  match entries with
  | [] => none
  | (k, e) :: rest => if k = key then some e else lookupEntry rest key

/-- Go map write `c.entries[key] = e`: replaces the binding in place when the
key is present, otherwise adds a new binding. -/
def insertEntry (entries : List (String × Entry T)) (key : String)
    (e : Entry T) : List (String × Entry T) :=
  match entries with
  | [] => [(key, e)]
  | (k, old) :: rest =>
    if k = key then (key, e) :: rest else (k, old) :: insertEntry rest key e

/-- Method Get from cache.go: returns the value, whether it was found, and whether it is
expired (stale).  A miss returns the zero value of `T` with two `false`s. -/
def Cache.get [Inhabited T] (c : Cache T) (now : Int) (key : String) :
    T × Bool × Bool :=
  match lookupEntry c.entries key with
  | none => (default, false, false)
  | some e => (e.value, true, e.IsExpired now)

/-- Method Set from cache.go: stores an item with expiry `now + c.ttl`. -/
def Cache.set (c : Cache T) (now : Int) (key : String) (value : T) :
    Cache T :=
  ⟨insertEntry c.entries key ⟨value, now + c.ttl, false⟩, c.ttl⟩

/-- Method SetWithTTL from cache.go: stores an item with a caller-specified
TTL. -/
def Cache.setWithTTL (c : Cache T) (now : Int) (key : String) (value : T)
    (ttl : Int) : Cache T :=
  ⟨insertEntry c.entries key ⟨value, now + ttl, false⟩, c.ttl⟩

/-- Method Delete from cache.go: removes the key if present. -/
def Cache.delete (c : Cache T) (key : String) : Cache T :=
  ⟨c.entries.filter (fun p => !(p.1 = key : Bool)), c.ttl⟩

/-- Method Clear from cache.go: removes all entries. -/
def Cache.clear (c : Cache T) : Cache T :=
  ⟨[], c.ttl⟩

/-- Method Cleanup from cache.go: removes every entry whose expiry instant
has passed as of the call (`now.After(entry.ExpiresAt)`). -/
def Cache.cleanup (c : Cache T) (now : Int) : Cache T :=
  ⟨c.entries.filter (fun p => !(p.2.IsExpired now)), c.ttl⟩

/-- Method Size from cache.go: number of items stored, expired or not. -/
def Cache.size (c : Cache T) : Nat :=
  c.entries.length

/-- Method SetTTL from cache.go: replaces the default TTL for future `Set`
calls. -/
def Cache.setTTL (c : Cache T) (ttl : Int) : Cache T :=
  ⟨c.entries, ttl⟩

/-- Method GetTTL from cache.go. -/
def Cache.getTTL (c : Cache T) : Int :=
  c.ttl

/-! ### Association-list lemmas -/

theorem lookupEntry_insertEntry_self (entries : List (String × Entry T))
    (key : String) (e : Entry T) :
    lookupEntry (insertEntry entries key e) key = some e := by
  induction entries with
  | nil => simp [insertEntry, lookupEntry]
  | cons p rest ih =>
    obtain ⟨k, old⟩ := p
    by_cases h : k = key
    · simp [insertEntry, lookupEntry, h]
    · simp [insertEntry, lookupEntry, h, ih]

theorem lookupEntry_filter_of_pred (entries : List (String × Entry T))
    (key : String) (e : Entry T) (q : String × Entry T → Bool)
    (hfind : lookupEntry entries key = some e) (hq : q (key, e) = true) :
    lookupEntry (entries.filter q) key = some e := by
  induction entries with
  | nil => simp [lookupEntry] at hfind
  | cons p rest ih =>
    obtain ⟨k, old⟩ := p
    by_cases h : k = key
    · subst h
      simp [lookupEntry] at hfind
      subst hfind
      simp [List.filter, hq, lookupEntry]
    · simp [lookupEntry, h] at hfind
      by_cases hk : q (k, old) = true
      · simp [List.filter, hk, lookupEntry, h]
        exact ih hfind
      · simp at hk
        simp [List.filter, hk]
        exact ih hfind

theorem lookupEntry_filter_pred (entries : List (String × Entry T))
    (key : String) (e : Entry T) (q : String × Entry T → Bool)
    (hfind : lookupEntry (entries.filter q) key = some e) :
    q (key, e) = true := by
  induction entries with
  | nil => simp [List.filter, lookupEntry] at hfind
  | cons p rest ih =>
    obtain ⟨k, old⟩ := p
    by_cases hk : q (k, old) = true
    · simp [List.filter, hk] at hfind
      by_cases h : k = key
      · subst h
        simp [lookupEntry] at hfind
        subst hfind
        exact hk
      · simp [lookupEntry, h] at hfind
        exact ih hfind
    · simp at hk
      simp [List.filter, hk] at hfind
      exact ih hfind

/-! ## Claims C3, C6, C7 — cache behaviour -/

/-- C3: for all keys `k` and values `v`, `Set(k, v)` on a TTL cache with a
nonnegative default TTL, followed immediately by `Get(k)`, returns
`(v, true, false)`: the value round-trips, is found, and is not expired. -/
theorem set_get_roundtrip [Inhabited T] (c : Cache T) (now : Int)
    (k : String) (v : T) (httl : 0 ≤ c.ttl) :
    (c.set now k v).get now k = (v, true, false) := by
  unfold Cache.get Cache.set
  rw [lookupEntry_insertEntry_self]
  simp [Entry.IsExpired]
  omega

theorem set_get_roundtrip_witness :
    0 ≤ ((Cache.new Nat 300).ttl) ∧
      ((Cache.new Nat 300).set 7 "k" 42).get 7 "k" = (42, true, false) :=
  ⟨by decide, set_get_roundtrip (Cache.new Nat 300) 7 "k" 42 (by decide)⟩

/-- C6: after `SetWithTTL(k, v, ttl)` and the passage of time strictly
greater than `ttl`, `Get(k)` returns `(v, true, true)`: the expired value is
retained and flagged stale, not dropped. -/
theorem setWithTTL_get_stale [Inhabited T] (c : Cache T) (now later : Int)
    (k : String) (v : T) (ttl : Int) (helapsed : ttl < later - now) :
    (c.setWithTTL now k v ttl).get later k = (v, true, true) := by
  unfold Cache.get Cache.setWithTTL
  rw [lookupEntry_insertEntry_self]
  simp [Entry.IsExpired]
  omega

theorem setWithTTL_get_stale_witness :
    (10 : Int) < 20 - 0 ∧
      ((Cache.new Nat 300).setWithTTL 0 "k" 5 10).get 20 "k" = (5, true, true) :=
  ⟨by decide, setWithTTL_get_stale (Cache.new Nat 300) 0 20 "k" 5 10 (by decide)⟩

/-- C7: after `Cleanup()` the cache contains exactly the entries whose expiry
instant had not passed at call time: `Size()` equals the count of non-elapsed
entries, every fresh entry survives untouched, and every surviving entry is
non-elapsed. -/
theorem cleanup_precision (c : Cache T) (now : Int) :
    (c.cleanup now).size
        = c.entries.countP (fun p => !(p.2.IsExpired now)) ∧
      (∀ k e, lookupEntry c.entries k = some e → e.IsExpired now = false →
        lookupEntry (c.cleanup now).entries k = some e) ∧
      (∀ k e, lookupEntry (c.cleanup now).entries k = some e →
        e.IsExpired now = false) := by
  refine ⟨?_, ?_, ?_⟩
  · unfold Cache.cleanup Cache.size
    simp [List.countP_eq_length_filter]
  · intro k e hfind hfresh
    unfold Cache.cleanup
    exact lookupEntry_filter_of_pred c.entries k e _ hfind (by simp [hfresh])
  · intro k e hfind
    unfold Cache.cleanup at hfind
    have h := lookupEntry_filter_pred c.entries k e _ hfind
    simpa using h

theorem cleanup_precision_witness :
    ((⟨[("a", ⟨1, 100, false⟩), ("b", ⟨2, 3, false⟩)], 300⟩ :
        Cache Nat).cleanup 5).size = 1 ∧
      lookupEntry ((⟨[("a", ⟨1, 100, false⟩), ("b", ⟨2, 3, false⟩)], 300⟩ :
        Cache Nat).cleanup 5).entries ("a") = some ⟨1, 100, false⟩ := by
  have h := cleanup_precision
    (⟨[("a", ⟨1, 100, false⟩), ("b", ⟨2, 3, false⟩)], 300⟩ : Cache Nat) 5
  refine ⟨?_, ?_⟩
  · rw [h.1]; decide
  · exact h.2.1 ("a") ⟨1, 100, false⟩ (by decide) (by decide)

/-! ## Prompt model (`model` package) -/

/-- Model type ChatMessage. -/
structure ChatMessage where
  role : String
  content : String
deriving Repr, DecidableEq

/-- Model type TextPrompt (dynamic-typed fields `Config` and
`ResolutionGraph` are outside the embedding). -/
structure TextPrompt where
  name : String
  version : Int
  labels : List String
  tags : List String
  prompt : String
  ptype : String
  commitMessage : Option String
deriving Repr, DecidableEq

/-- Model type ChatPrompt (dynamic-typed fields `Config` and
`ResolutionGraph` are outside the embedding). -/
structure ChatPrompt where
  name : String
  version : Int
  labels : List String
  tags : List String
  prompt : List ChatMessage
  ptype : String
  commitMessage : Option String
deriving Repr, DecidableEq

/-- Model type Prompt: union of an optional text variant and an optional
chat variant (each a nilable embedded pointer in Go). -/
structure Prompt where
  textPrompt : Option TextPrompt
  chatPrompt : Option ChatPrompt
deriving Repr, DecidableEq

/-- The Go zero value of `Prompt` has both variant pointers nil. -/
instance : Inhabited Prompt := ⟨⟨none, none⟩⟩

/-! ## Resolver embedding (`langfuse.go`) -/

/-- Options bundle GetPromptOptions (the `FetchTimeout` field only bounds
the transport call and acts by making `doGet` fail, so it carries no
sequential state). -/
structure GetPromptOptions where
  version : Option Int
  label : Option String
  fallbackPrompt : Option Prompt
  cacheTTL : Option Int
  forceRefresh : Bool
deriving Repr, DecidableEq

/-- Options value with every option unset, as for a nil `opts`. -/
def GetPromptOptions.empty : GetPromptOptions :=
  ⟨none, none, none, none, false⟩

/-- The prompt-caching fields of the `Langfuse` struct: the cache and the
default prompt-cache TTL.  The HTTP client and ingestion observer are
external collaborators. -/
structure LangfuseState where
  promptCache : Cache Prompt
  promptCacheTTL : Int
deriving Repr, DecidableEq

/-- Function buildPromptCacheKey: version takes precedence over label; with
neither set, the label defaults to `"production"`. -/
def buildPromptCacheKey (name : String) (opts : GetPromptOptions) : String :=
  match opts.version with
  | some v => "prompt:" ++ name ++ ":v" ++ toString v
  | none =>
    match opts.label with
    | some lbl => "prompt:" ++ name ++ ":l:" ++ lbl
    | none => "prompt:" ++ name ++ ":l:production"

/-- The query parameter `fetchPrompt` attaches to the request: `version`
when set, else `label` when set, else nothing (the API then defaults to
`"production"` server-side). -/
inductive PromptQuery where
  | byVersion (v : Int)
  | byLabel (lbl : String)
  | unqualified
deriving Repr, DecidableEq

/-- The query-parameter selection of `fetchPrompt` (`params.Set` branch). -/
def effectivePromptQuery (opts : GetPromptOptions) : PromptQuery :=
  match opts.version with
  | some v => .byVersion v
  | none =>
    match opts.label with
    | some lbl => .byLabel lbl
    | none => .unqualified

/-- Abstract view of a response body: the raw bytes (as text, kept for the
HTTP-error diagnostic) together with the outcome of each stdlib JSON-decoding
step that `parsePromptResponse` performs on it: whether the top-level
unmarshal succeeds, the decoded common fields, and the decodes of the
`prompt` field as a string and as a chat-message array. -/
structure PromptBody where
  raw : String
  unmarshalOk : Bool
  type : String
  name : String
  version : Int
  labels : List String
  tags : List String
  commitMessage : Option String
  promptText : Option String
  promptChat : Option (List ChatMessage)
deriving Repr, DecidableEq

/-- Outcome of the transport collaborator `client.DoGetRequest`: a transport
error, or a body with an HTTP status code. -/
inductive DoGetResult where
  | fail (msg : String)
  | ok (body : PromptBody) (status : Int)
deriving Repr, DecidableEq

/-- The transport collaborator: from the prompt name and the effective query
to an outcome.  Path assembly (percent-encoding, query encoding) happens on
the way to the HTTP layer and is injective in these two inputs. -/
abbrev DoGet : Type := String → PromptQuery → DoGetResult

/-- Function parsePromptResponse: decode the common fields, then branch on the
`type` discriminant into the matching `Prompt` variant; an unrecognized
discriminant is an error. -/
def parsePromptResponse (b : PromptBody) : Except String Prompt :=
  if b.unmarshalOk = false then
    .error "failed to unmarshal prompt"
  else if b.type = "text" then
    match b.promptText with
    | none => .error "failed to unmarshal text prompt"
    | some s =>
      .ok ⟨some ⟨b.name, b.version, b.labels, b.tags, s, "text",
        b.commitMessage⟩, none⟩
  else if b.type = "chat" then
    match b.promptChat with
    | none => .error "failed to unmarshal chat prompt"
    | some msgs =>
      .ok ⟨none, some ⟨b.name, b.version, b.labels, b.tags, msgs, "chat",
        b.commitMessage⟩⟩
  else
    .error ("unknown prompt type: " ++ b.type)

/-- Function fetchPrompt: issue the request, fail on transport error or HTTP status
≥ 400, parse the body, and on success write the result into the cache under
the prompt cache key with TTL `opts.CacheTTL` when set, else the default.
Every failure path leaves the state untouched and wraps the error. -/
def fetchPrompt (l : LangfuseState) (doGet : DoGet) (now : Int)
    (name : String) (opts : GetPromptOptions) :
    Except String Prompt × LangfuseState :=
  match doGet name (effectivePromptQuery opts) with
  | .fail msg => (.error ("failed to fetch prompt: " ++ msg), l)
  | .ok body status =>
    if 400 ≤ status then
      (.error ("failed to fetch prompt: "
        ++ ("HTTP " ++ toString status ++ (": " ++ body.raw))), l)
    else
      match parsePromptResponse body with
      | .error msg => (.error ("failed to parse prompt response: " ++ msg), l)
      | .ok prompt =>
        (.ok prompt,
          ⟨l.promptCache.setWithTTL now (buildPromptCacheKey name opts) prompt
              (match opts.cacheTTL with
                | some t => t
                | none => l.promptCacheTTL),
            l.promptCacheTTL⟩)

/-- Function GetPrompt: consult the cache unless `ForceRefresh`; serve a fresh hit
directly; on a stale hit try a fetch and fall back to the stale value when it
fails; on a miss (or forced refresh) fetch, and on failure serve the
caller-supplied fallback when present, else the error. -/
def GetPrompt (l : LangfuseState) (doGet : DoGet) (now : Int)
    (name : String) (opts : GetPromptOptions) :
    Except String Prompt × LangfuseState :=
  if opts.forceRefresh = false then
    match Cache.get l.promptCache now (buildPromptCacheKey name opts) with
    | (prompt, true, expired) =>
      if expired = false then
        (.ok prompt, l)
      else
        match fetchPrompt l doGet now name opts with
        | (.error _, l2) => (.ok prompt, l2)
        | (.ok newPrompt, l2) => (.ok newPrompt, l2)
    | (_, false, _) =>
      match fetchPrompt l doGet now name opts with
      | (.ok prompt, l2) => (.ok prompt, l2)
      | (.error e, l2) =>
        match opts.fallbackPrompt with
        | some f => (.ok f, l2)
        | none => (.error e, l2)
  else
    match fetchPrompt l doGet now name opts with
    | (.ok prompt, l2) => (.ok prompt, l2)
    | (.error e, l2) =>
      match opts.fallbackPrompt with
      | some f => (.ok f, l2)
      | none => (.error e, l2)

/-- Function ClearPromptCache. -/
def ClearPromptCache (l : LangfuseState) : LangfuseState :=
  ⟨l.promptCache.clear, l.promptCacheTTL⟩

/-! ## Concrete scenario values used by the witnesses -/

/-- Substring test on character lists: some suffix of `s` starts with
`sub`. -/
def hasSubstr (s sub : List Char) : Bool :=
  match s with
  | [] => sub.isEmpty
  | c :: rest => sub.isPrefixOf (c :: rest) || hasSubstr rest sub

/-- Transport collaborator that always fails. -/
def alwaysFailDoGet : DoGet := fun _ _ => DoGetResult.fail ("boom")

/-- Resolver state with an empty prompt cache and a 300-unit default TTL. -/
def emptyLangfuse : LangfuseState := ⟨Cache.new Prompt 300, 300⟩

/-- Sample text prompt, version 1. -/
def samplePromptV1 : Prompt :=
  ⟨some ⟨"p", 1, [], [], "hello v1", "text", none⟩, none⟩

/-- Sample text prompt, version 2. -/
def samplePromptV2 : Prompt :=
  ⟨some ⟨"p", 2, [], [], "hello v2", "text", none⟩, none⟩

/-- Sample caller-supplied fallback prompt. -/
def sampleFallback : Prompt :=
  ⟨some ⟨"fb", 0, [], [], "fallback", "text", none⟩, none⟩

/-- Response body whose parse yields `samplePromptV2`. -/
def sampleBodyV2 : PromptBody :=
  ⟨"raw", true, "text", "p", 2, [], [], none, some ("hello v2"), none⟩

/-- Transport collaborator that always answers `sampleBodyV2` with
HTTP 200. -/
def v2DoGet : DoGet := fun _ _ => DoGetResult.ok sampleBodyV2 200

/-- Options requesting only a caller-supplied fallback. -/
def optsFallback : GetPromptOptions :=
  ⟨none, none, some sampleFallback, none, false⟩

/-- Options requesting only a forced refresh. -/
def optsForce : GetPromptOptions := ⟨none, none, none, none, true⟩

/-- Resolver state whose cache holds `samplePromptV1` under the default key
for name "p", expiring at instant 10. -/
def staleV1Langfuse : LangfuseState :=
  ⟨⟨[("prompt:p:l:production", ⟨samplePromptV1, 10, false⟩)], 300⟩, 300⟩

/-- Resolver state like `staleV1Langfuse` but with the entry expiring only
at instant 100. -/
def freshV1Langfuse : LangfuseState :=
  ⟨⟨[("prompt:p:l:production", ⟨samplePromptV1, 100, false⟩)], 300⟩, 300⟩

/-! ## Claim C4 — cache-key determinism -/

/-- C4: the prompt cache key is a deterministic function of
(name, version, label): with the version set the key is
`"prompt:" ++ name ++ ":v" ++ version` whether or not a label is also set
(version precedence); else with the label set it is
`"prompt:" ++ name ++ ":l:" ++ label`; else it is
`"prompt:" ++ name ++ ":l:production"`, which coincides with the key for an
explicit "production" label even when the unrelated options (fallback,
per-request TTL, force-refresh) differ. -/
theorem buildPromptCacheKey_spec (name lbl : String) (v : Int)
    (fb fb2 : Option Prompt) (ct ct2 : Option Int) (fr fr2 : Bool) :
    buildPromptCacheKey name ⟨some v, some lbl, fb, ct, fr⟩
        = "prompt:" ++ name ++ ":v" ++ toString v ∧
      buildPromptCacheKey name ⟨some v, none, fb, ct, fr⟩
        = "prompt:" ++ name ++ ":v" ++ toString v ∧
      buildPromptCacheKey name ⟨none, some lbl, fb, ct, fr⟩
        = "prompt:" ++ name ++ ":l:" ++ lbl ∧
      buildPromptCacheKey name ⟨none, none, fb, ct, fr⟩
        = "prompt:" ++ name ++ ":l:production" ∧
      buildPromptCacheKey name ⟨none, none, fb, ct, fr⟩
        = buildPromptCacheKey name ⟨none, some "production", fb2, ct2, fr2⟩ := by
  refine ⟨rfl, rfl, rfl, rfl, ?_⟩
  show "prompt:" ++ name ++ ":l:production"
      = "prompt:" ++ name ++ ":l:" ++ "production"
  conv_rhs => rw [String.append_assoc]
  rfl

/-! ## Claim C9 — failed fetches do not touch the cache -/

/-- C9: a fetch attempt that fails — transport error, HTTP status ≥ 400, or
parse error (including an unrecognized type discriminant) — never modifies
the cache: the whole resolver state after a failed fetch equals the state
before it. -/
theorem fetch_failure_preserves_cache (l : LangfuseState) (doGet : DoGet)
    (now : Int) (name : String) (opts : GetPromptOptions) (msg : String)
    (hfail : (fetchPrompt l doGet now name opts).1 = .error msg) :
    (fetchPrompt l doGet now name opts).2 = l := by
  unfold fetchPrompt at hfail ⊢
  cases hdo : doGet name (effectivePromptQuery opts) with
  | fail m => simp [hdo]
  | ok body status =>
    simp only [hdo] at hfail ⊢
    by_cases hs : (400 : Int) ≤ status
    · simp [hs]
    · simp only [if_neg hs] at hfail ⊢
      cases hp : parsePromptResponse body with
      | error m2 => simp [hp]
      | ok p => simp only [hp] at hfail; simp at hfail

theorem fetch_failure_preserves_cache_witness :
    (fetchPrompt staleV1Langfuse alwaysFailDoGet 20 ("p")
        GetPromptOptions.empty).2 = staleV1Langfuse :=
  fetch_failure_preserves_cache staleV1Langfuse alwaysFailDoGet 20 ("p")
    GetPromptOptions.empty ("failed to fetch prompt: boom") rfl

/-! ## Claim C1 — stale-while-error -/

/-- C1: when the cache entry for the key exists but is expired and the fetch
collaborator fails, GetPrompt with ForceRefresh false returns the expired
cached value with no error: the fetch error is suppressed. -/
theorem stale_while_error (l : LangfuseState) (doGet : DoGet) (now : Int)
    (name : String) (opts : GetPromptOptions) (e : Entry Prompt)
    (msg : String)
    (hforce : opts.forceRefresh = false)
    (hhit : lookupEntry l.promptCache.entries (buildPromptCacheKey name opts)
      = some e)
    (hstale : e.IsExpired now = true)
    (hfail : (fetchPrompt l doGet now name opts).1 = .error msg) :
    (GetPrompt l doGet now name opts).1 = .ok e.value := by
  unfold GetPrompt
  cases hf : fetchPrompt l doGet now name opts with
  | mk res l2 =>
    rw [hf] at hfail
    cases res with
    | ok q => simp at hfail
    | error e2 => simp [hforce, Cache.get, hhit, hstale, hf]

theorem stale_while_error_witness :
    (GetPrompt staleV1Langfuse alwaysFailDoGet 20 ("p")
        GetPromptOptions.empty).1 = .ok samplePromptV1 :=
  stale_while_error staleV1Langfuse alwaysFailDoGet 20 ("p")
    GetPromptOptions.empty ⟨samplePromptV1, 10, false⟩
    ("failed to fetch prompt: boom") rfl rfl rfl rfl

/-! ## Claim C10 — the stale path ignores the fallback -/

/-- C10: when the cache holds an expired entry for the key and the fetch
fails, GetPrompt returns the stale cached value even with FallbackPrompt
set: the fallback is not consulted on the stale path. -/
theorem stale_overrides_fallback (l : LangfuseState) (doGet : DoGet)
    (now : Int) (name : String) (opts : GetPromptOptions) (e : Entry Prompt)
    (F : Prompt) (msg : String)
    (hforce : opts.forceRefresh = false)
    (hfallback : opts.fallbackPrompt = some F)
    (hhit : lookupEntry l.promptCache.entries (buildPromptCacheKey name opts)
      = some e)
    (hstale : e.IsExpired now = true)
    (hfail : (fetchPrompt l doGet now name opts).1 = .error msg) :
    (GetPrompt l doGet now name opts).1 = .ok e.value := by
  unfold GetPrompt
  cases hf : fetchPrompt l doGet now name opts with
  | mk res l2 =>
    rw [hf] at hfail
    cases res with
    | ok q => simp at hfail
    | error e2 => simp [hforce, Cache.get, hhit, hstale, hf]

theorem stale_overrides_fallback_witness :
    (GetPrompt staleV1Langfuse alwaysFailDoGet 20 ("p") optsFallback).1
        = .ok samplePromptV1 ∧ samplePromptV1 ≠ sampleFallback :=
  ⟨stale_overrides_fallback staleV1Langfuse alwaysFailDoGet 20 ("p")
      optsFallback ⟨samplePromptV1, 10, false⟩ sampleFallback
      ("failed to fetch prompt: boom") rfl rfl rfl rfl rfl,
    by decide⟩

/-! ## Claim C2 — fallback on miss -/

/-- C2: on a cache miss with a failing fetch, GetPrompt returns the
caller-supplied FallbackPrompt with no error when one is set, and the fetch
error when none is set. -/
theorem fallback_on_miss (l : LangfuseState) (doGet : DoGet) (now : Int)
    (name : String) (opts : GetPromptOptions) (msg : String)
    (hforce : opts.forceRefresh = false)
    (hmiss : lookupEntry l.promptCache.entries (buildPromptCacheKey name opts)
      = none)
    (hfail : (fetchPrompt l doGet now name opts).1 = .error msg) :
    (GetPrompt l doGet now name opts).1
      = match opts.fallbackPrompt with
        | some f => .ok f
        | none => .error msg := by
  unfold GetPrompt
  cases hf : fetchPrompt l doGet now name opts with
  | mk res l2 =>
    rw [hf] at hfail
    cases res with
    | ok q => simp at hfail
    | error e2 =>
      simp only [Prod.fst] at hfail
      cases hfail
      cases hfb : opts.fallbackPrompt with
      | some f => simp [hforce, Cache.get, hmiss, hf, hfb]
      | none => simp [hforce, Cache.get, hmiss, hf, hfb]

theorem fallback_on_miss_witness :
    (GetPrompt emptyLangfuse alwaysFailDoGet 0 ("p") optsFallback).1
        = .ok sampleFallback ∧
      (GetPrompt emptyLangfuse alwaysFailDoGet 0 ("p")
          GetPromptOptions.empty).1
        = .error ("failed to fetch prompt: boom") :=
  ⟨fallback_on_miss emptyLangfuse alwaysFailDoGet 0 ("p") optsFallback
      ("failed to fetch prompt: boom") rfl rfl rfl,
    fallback_on_miss emptyLangfuse alwaysFailDoGet 0 ("p")
      GetPromptOptions.empty ("failed to fetch prompt: boom") rfl rfl rfl⟩

/-! ## Claim C5 — force-refresh bypass -/

/-- C5: with ForceRefresh true, GetPrompt skips the cache read: even with a
fresh (non-expired) value cached under the key, when the transport returns a
body that parses to V2 with a non-error status, the call returns V2 and the
cache afterwards holds V2 under the same key. -/
theorem force_refresh_bypass (l : LangfuseState) (doGet : DoGet) (now : Int)
    (name : String) (opts : GetPromptOptions) (e : Entry Prompt)
    (body : PromptBody) (status : Int) (v2 : Prompt)
    (hforce : opts.forceRefresh = true)
    (hhit : lookupEntry l.promptCache.entries (buildPromptCacheKey name opts)
      = some e)
    (hfresh : e.IsExpired now = false)
    (hdo : doGet name (effectivePromptQuery opts) = .ok body status)
    (hstatus : ¬ (400 : Int) ≤ status)
    (hparse : parsePromptResponse body = .ok v2) :
    (GetPrompt l doGet now name opts).1 = .ok v2 ∧
      ∃ ent, lookupEntry
          (GetPrompt l doGet now name opts).2.promptCache.entries
          (buildPromptCacheKey name opts) = some ent ∧ ent.value = v2 := by
  have hfetch : fetchPrompt l doGet now name opts
      = (.ok v2,
        ⟨Cache.setWithTTL l.promptCache now (buildPromptCacheKey name opts) v2
            (match opts.cacheTTL with
              | some t => t
              | none => l.promptCacheTTL),
          l.promptCacheTTL⟩) := by
    unfold fetchPrompt
    simp [hdo, hstatus, hparse]
  constructor
  · unfold GetPrompt
    rw [hfetch]
    simp [hforce]
  · unfold GetPrompt
    rw [hfetch]
    simp only [hforce]
    refine ⟨⟨v2, now + (match opts.cacheTTL with
      | some t => t
      | none => l.promptCacheTTL), false⟩, ?_, rfl⟩
    simp [Cache.setWithTTL, lookupEntry_insertEntry_self]

theorem force_refresh_bypass_witness :
    (GetPrompt freshV1Langfuse v2DoGet 5 ("p") optsForce).1
        = .ok samplePromptV2 ∧
      ∃ ent,
        lookupEntry
          (GetPrompt freshV1Langfuse v2DoGet 5 ("p")
            optsForce).2.promptCache.entries ("prompt:p:l:production")
          = some ent ∧ ent.value = samplePromptV2 :=
  force_refresh_bypass freshV1Langfuse v2DoGet 5 ("p") optsForce
    ⟨samplePromptV1, 100, false⟩ sampleBodyV2 200 samplePromptV2
    rfl rfl rfl rfl (by decide) rfl

/-! ## Claim C8 — error wrapping

The Go code wraps every unrecovered fetch error, but the added context names
only the failure stage (transport failure, HTTP status plus raw body, or
parse failure), not the prompt name, version, or label being resolved. -/

/-- Helper: every error produced by fetchPrompt extends one of the two stage
prefixes added by its wrapping. -/
theorem fetchPrompt_error_shape (l : LangfuseState) (doGet : DoGet)
    (now : Int) (name : String) (opts : GetPromptOptions) (msg : String)
    (h : (fetchPrompt l doGet now name opts).1 = .error msg) :
    ∃ rest, msg = "failed to fetch prompt: " ++ rest ∨
      msg = "failed to parse prompt response: " ++ rest := by
  unfold fetchPrompt at h
  cases hdo : doGet name (effectivePromptQuery opts) with
  | fail m =>
    simp only [hdo] at h
    simp at h
    exact ⟨m, Or.inl h.symm⟩
  | ok body status =>
    simp only [hdo] at h
    by_cases hs : (400 : Int) ≤ status
    · rw [if_pos hs] at h
      simp at h
      exact ⟨"HTTP " ++ toString status ++ (": " ++ body.raw), Or.inl h.symm⟩
    · rw [if_neg hs] at h
      cases hp : parsePromptResponse body with
      | error m2 =>
        simp only [hp] at h
        simp at h
        exact ⟨m2, Or.inr h.symm⟩
      | ok p =>
        simp only [hp] at h
        simp at h

/-- Helper: an error returned by GetPrompt is exactly the error of its
fetchPrompt call (errors arise on no other path). -/
theorem GetPrompt_error_from_fetch (l : LangfuseState) (doGet : DoGet)
    (now : Int) (name : String) (opts : GetPromptOptions) (msg : String)
    (h : (GetPrompt l doGet now name opts).1 = .error msg) :
    (fetchPrompt l doGet now name opts).1 = .error msg := by
  unfold GetPrompt at h
  cases hf : fetchPrompt l doGet now name opts with
  | mk res l2 =>
    rw [hf] at h
    cases hget : Cache.get l.promptCache now (buildPromptCacheKey name opts)
      with
    | mk p pr =>
      obtain ⟨found, expired⟩ := pr
      rw [hget] at h
      by_cases hforce : opts.forceRefresh = false
      · cases found
        · cases res with
          | ok q => simp [hforce] at h
          | error e2 =>
            cases hfb : opts.fallbackPrompt with
            | some f => simp [hforce, hfb] at h
            | none =>
              simp [hforce, hfb] at h
              simp [h]
        · cases expired
          · simp [hforce] at h
          · cases res with
            | ok q => simp [hforce] at h
            | error e2 => simp [hforce] at h
      · cases res with
        | ok q => simp [hforce] at h
        | error e2 =>
          cases hfb : opts.fallbackPrompt with
          | some f => simp [hforce, hfb] at h
          | none =>
            simp [hforce, hfb] at h
            simp [h]

/-- C8 counterexample: resolving name "zzz" at version 7 with the transport
failing with message "boom" and no recovery avenue, GetPrompt returns the
wrapped error "failed to fetch prompt: boom", whose text contains neither
the name "zzz" nor the digit of version 7 — the wrapping context does not
identify which name/version/label was being resolved. -/
theorem fetch_error_lacks_resolution_context :
    (GetPrompt ⟨Cache.new Prompt 300, 300⟩
        (fun _ _ => DoGetResult.fail ("boom")) 0 ("zzz")
        ⟨some 7, none, none, none, false⟩).1
        = .error ("failed to fetch prompt: boom") ∧
      hasSubstr ("failed to fetch prompt: boom").toList ("zzz").toList
        = false ∧
      hasSubstr ("failed to fetch prompt: boom").toList ("7").toList
        = false :=
  ⟨rfl, by decide, by decide⟩

/-- C8 (amended): when a fetch failure is not recovered by the stale or
fallback policy, GetPrompt returns the fetch error wrapped with context
identifying the failure stage — the message extends
"failed to fetch prompt: " (transport errors, and HTTP ≥ 400 with the
status code and raw body) or "failed to parse prompt response: " — but the
wrapping does not name the name/version/label being resolved. -/
theorem GetPrompt_error_wrapped (l : LangfuseState) (doGet : DoGet)
    (now : Int) (name : String) (opts : GetPromptOptions) (msg : String)
    (herr : (GetPrompt l doGet now name opts).1 = .error msg) :
    ∃ rest, msg = "failed to fetch prompt: " ++ rest ∨
      msg = "failed to parse prompt response: " ++ rest :=
  fetchPrompt_error_shape l doGet now name opts msg
    (GetPrompt_error_from_fetch l doGet now name opts msg herr)

theorem GetPrompt_error_wrapped_witness :
    ∃ rest, "failed to fetch prompt: boom"
        = "failed to fetch prompt: " ++ rest ∨
      "failed to fetch prompt: boom"
        = "failed to parse prompt response: " ++ rest :=
  GetPrompt_error_wrapped emptyLangfuse alwaysFailDoGet 0 ("q")
    GetPromptOptions.empty ("failed to fetch prompt: boom") rfl
